import Mathlib

/-!
Shallow embedding of `performance_metrics.py` (class `PerformanceMetrics`):
a streaming telemetry aggregator for a cart-pole controller.  Python floats
are modelled as rationals; the mutable node state is a structure threaded
explicitly through the four subscription callbacks and the periodic
`compute_metrics` timer.  The `np.sqrt` applied to the RMS cart position is
strictly monotone and only affects rendering, so the report stores the
pre-square-root mean of squares.
-/

/-- `sensor_msgs.msg.JointState`: parallel name/position/velocity arrays. -/
structure JointStateMsg where
  name : List String
  position : List ℚ
  velocity : List ℚ
deriving DecidableEq

/-- The mutable state of the `PerformanceMetrics` node: the fields assigned
in `__init__`. -/
structure PerformanceMetrics where
  pole_angles : List ℚ
  cart_positions : List ℚ
  control_forces : List ℚ
  recovery_times : List ℚ
  control_timestamps : List ℚ
  last_earthquake_time : Option ℚ
  last_stable_time : Option ℚ
  simulation_time : ℚ
deriving DecidableEq

/-- The state right after `__init__`: empty series, no disturbance window,
simulation time 0.0. -/
def initState : PerformanceMetrics :=
  { pole_angles := []
    cart_positions := []
    control_forces := []
    recovery_times := []
    control_timestamps := []
    last_earthquake_time := none
    last_stable_time := none
    simulation_time := 0 }

/-- Python `list.index(target)`: index of the first occurrence, `none` when
the element is absent (where CPython raises `ValueError`). -/
def nameIndex (target : String) : List String → Option ℕ
  | [] => none
  | n :: ns => if n = target then some 0 else (nameIndex target ns).map (· + 1)

/-- Observable outcome of one `joint_state_callback` invocation: the node
state afterwards, whether the caught-`ValueError` warning was logged,
whether the cart-position-limit warning was logged, and whether an uncaught
`IndexError` escaped the handler. -/
structure JSOutcome where
  state : PerformanceMetrics
  name_warned : Bool
  limit_warned : Bool
  fault : Bool
deriving DecidableEq

/-- `joint_state_callback`: looks up the two required joint names (a missing
name raises `ValueError`, which the `except ValueError` clause catches and
turns into a warning), reads position/velocity entries at the found indices
(an out-of-range read raises `IndexError`, which nothing catches), appends
the cart position and the absolute pole angle, warns when `|cart_pos| > 2.5`,
and, when a disturbance window is live and `|cart_vel| < 0.05`, appends the
recovery duration and clears the window. -/
def joint_state_callback (s : PerformanceMetrics) (msg : JointStateMsg) : JSOutcome :=
  match nameIndex "cart_to_base" msg.name with
  | none => ⟨s, true, false, false⟩
  | some cart_idx =>
    match nameIndex "pole_joint" msg.name with
    | none => ⟨s, true, false, false⟩
    | some pole_idx =>
      match msg.position[cart_idx]? with
      | none => ⟨s, false, false, true⟩
      | some cart_pos =>
        match msg.position[pole_idx]? with
        | none => ⟨s, false, false, true⟩
        | some pole_angle =>
          match msg.velocity[cart_idx]? with
          | none => ⟨s, false, false, true⟩
          | some v =>
            let cart_vel := |v|
            let s1 := { s with
              cart_positions := s.cart_positions ++ [cart_pos]
              pole_angles := s.pole_angles ++ [|pole_angle|] }
            let lw := decide (|cart_pos| > 5/2)
            match s1.last_earthquake_time with
            | some teq =>
              if cart_vel < 5/100 then
                ⟨{ s1 with
                    last_stable_time := some s1.simulation_time
                    recovery_times :=
                      s1.recovery_times ++ [s1.simulation_time - teq]
                    last_earthquake_time := none }, false, lw, false⟩
              else ⟨s1, false, lw, false⟩
            | none => ⟨s1, false, lw, false⟩

/-- `force_callback`: appends `abs(msg.data)` to the control-force series and
the current simulation time to the control-timestamp series. -/
def force_callback (s : PerformanceMetrics) (data : ℚ) : PerformanceMetrics :=
  { s with
    control_forces := s.control_forces ++ [|data|]
    control_timestamps := s.control_timestamps ++ [s.simulation_time] }

/-- `earthquake_callback`: when `abs(msg.data) > 5.0`, records the current
simulation time as the disturbance window start. -/
def earthquake_callback (s : PerformanceMetrics) (data : ℚ) : PerformanceMetrics :=
  if 5 < |data| then { s with last_earthquake_time := some s.simulation_time }
  else s

/-- ROS2 time conversion in `clock_callback`: `sec + nanosec * 1e-9`. -/
def clockTime (sec : ℤ) (nanosec : ℕ) : ℚ :=
  (sec : ℚ) + (nanosec : ℚ) / 1000000000

/-- `clock_callback`: overwrites the simulation time. -/
def clock_callback (s : PerformanceMetrics) (sec : ℤ) (nanosec : ℕ) :
    PerformanceMetrics :=
  { s with simulation_time := clockTime sec nanosec }

/-- `np.mean`: arithmetic mean (sum over length). -/
def mean (l : List ℚ) : ℚ := l.sum / l.length

/-- `np.diff`: consecutive differences, `[l₁ - l₀, l₂ - l₁, ...]`. -/
def diffs (l : List ℚ) : List ℚ := List.zipWith (fun a b => b - a) l l.tail

/-- Python `max` over a list; the empty case is unreachable behind the
minimum-sample guard (where CPython would raise `ValueError`). -/
def listMax : List ℚ → ℚ
  | [] => 0
  | x :: xs => xs.foldl max x

/-- The report assembled by `compute_metrics` once the sample guard passes.
`rms_cart_position_sq` is the mean of squared positions (the `np.sqrt` of
the source is applied at rendering); `avg_control_rate` is the raw inverted
mean interval (the fixed divisor 4 is applied at reporting, see
`reportedRate`); `control_rate_ok` mirrors the `control_rate_status`
string (`true` for the meets-50Hz message, `none` when fewer than two
timestamps exist). -/
structure Report where
  max_pole_angle_dev : ℚ
  rms_cart_position_sq : ℚ
  peak_force : ℚ
  efficiency_percentage : ℚ
  avg_recovery_time : Option ℚ
  avg_control_rate : Option ℚ
  control_rate_ok : Option Bool
deriving DecidableEq

/-- `compute_metrics`: guard on at least 10 samples in each of the angle,
position and force series (otherwise only a warning, no report); then the
aggregates over full history.  The method reads but never assigns node
state, which threading the state through makes explicit. -/
def compute_metrics (s : PerformanceMetrics) :
    PerformanceMetrics × Option Report :=
  if s.pole_angles.length < 10 ∨ s.cart_positions.length < 10 ∨
      s.control_forces.length < 10 then
    (s, none)
  else
    let peak_force := listMax s.control_forces
    let rate : Option ℚ :=
      if 1 < s.control_timestamps.length then
        some (1 / mean (diffs s.control_timestamps))
      else none
    (s, some
      { max_pole_angle_dev := listMax s.pole_angles
        rms_cart_position_sq := mean (s.cart_positions.map (fun x => x * x))
        peak_force := peak_force
        efficiency_percentage :=
          max 0 (min ((1 - peak_force / 250) * 100) 100)
        avg_recovery_time :=
          if s.recovery_times.isEmpty then none
          else some (mean s.recovery_times)
        avg_control_rate := rate
        control_rate_ok :=
          rate.map (fun r => decide (40 ≤ r / 4 ∧ r / 4 ≤ 70)) })

/-- The control-rate value actually printed by the report sink:
`avg_control_rate / 4`. -/
def reportedRate (r : Report) : Option ℚ :=
  r.avg_control_rate.map (fun x => x / 4)

/-- One inbound event: the four subscriptions plus the periodic timer. -/
inductive Event where
  | state (msg : JointStateMsg)
  | force (data : ℚ)
  | quake (data : ℚ)
  | clock (sec : ℤ) (nanosec : ℕ)
  | tick
deriving DecidableEq

/-- Dispatch one event to its handler (the timer keeps only the state). -/
def step (s : PerformanceMetrics) : Event → PerformanceMetrics
  | .state msg => (joint_state_callback s msg).state
  | .force data => force_callback s data
  | .quake data => earthquake_callback s data
  | .clock sec nanosec => clock_callback s sec nanosec
  | .tick => (compute_metrics s).1

/-- Run a sequence of events from a state. -/
def run (s : PerformanceMetrics) : List Event → PerformanceMetrics
  | [] => s
  | e :: es => run (step s e) es

/-- A well-formed `JointState` message carrying both required joints:
`cart_to_base` at index 0 with position `pos` and velocity `vel`,
`pole_joint` at index 1 with position `angle`. -/
def mkStateMsg (pos angle vel : ℚ) : JointStateMsg :=
  { name := ["cart_to_base", "pole_joint"]
    position := [pos, angle]
    velocity := [vel, 0] }

/-- The raw inverted mean interval `1.0 / np.mean(np.diff(timestamps))`
computed in the control-rate branch of `compute_metrics`. -/
def rateAt (s : PerformanceMetrics) : ℚ := 1 / mean (diffs s.control_timestamps)

/-- A message naming both required joints whose position/velocity arrays are
too short for the looked-up indices. -/
def shortMsg : JointStateMsg :=
  { name := ["cart_to_base", "pole_joint"], position := [], velocity := [] }

/-- A message missing both required joint names. -/
def noJointMsg : JointStateMsg := { name := ["x"], position := [], velocity := [] }

/-- An event trace producing ten valid state samples and ten force samples
all taken at the same simulation time 2. -/
def degenerateTrace : List Event :=
  [Event.clock 2 0,
   Event.state (mkStateMsg 0 0 1), Event.state (mkStateMsg 0 0 1),
   Event.state (mkStateMsg 0 0 1), Event.state (mkStateMsg 0 0 1),
   Event.state (mkStateMsg 0 0 1), Event.state (mkStateMsg 0 0 1),
   Event.state (mkStateMsg 0 0 1), Event.state (mkStateMsg 0 0 1),
   Event.state (mkStateMsg 0 0 1), Event.state (mkStateMsg 0 0 1),
   Event.force 3, Event.force 3, Event.force 3, Event.force 3,
   Event.force 3, Event.force 3, Event.force 3, Event.force 3,
   Event.force 3, Event.force 3]

/-- Ten numerically identical control timestamps. -/
def degenerateStamps : List ℚ := [2, 2, 2, 2, 2, 2, 2, 2, 2, 2]

/-- A node state (reached by `degenerateTrace`, see
`degenerateState_reachable`) in which every minimum-sample guard passes yet
all ten control timestamps are numerically identical. -/
def degenerateState : PerformanceMetrics :=
  { pole_angles := [0, 0, 0, 0, 0, 0, 0, 0, 0, 0]
    cart_positions := [0, 0, 0, 0, 0, 0, 0, 0, 0, 0]
    control_forces := [3, 3, 3, 3, 3, 3, 3, 3, 3, 3]
    recovery_times := []
    control_timestamps := degenerateStamps
    last_earthquake_time := none
    last_stable_time := none
    simulation_time := 2 }

/-- The single-disturbance recovery scenario of the spec: clock set to
`clockTime sec0 ns0`, one disturbance `e`, clock set to `clockTime sec1 ns1`,
then a valid state sample with cart velocity `vel`. -/
def recoveryScenario (s : PerformanceMetrics) (e pos angle vel : ℚ)
    (sec0 sec1 : ℤ) (ns0 ns1 : ℕ) : PerformanceMetrics :=
  (joint_state_callback
    (clock_callback (earthquake_callback (clock_callback s sec0 ns0) e) sec1 ns1)
    (mkStateMsg pos angle vel)).state

/-- The re-arming scenario: two disturbances `e1` (at `clockTime sec0 ns0`)
and `e2` (at `clockTime sec1 ns1`) before any low-velocity state sample,
then a valid state sample with cart velocity `vel` at `clockTime sec2 ns2`. -/
def rearmScenario (s : PerformanceMetrics) (e1 e2 pos angle vel : ℚ)
    (sec0 sec1 sec2 : ℤ) (ns0 ns1 ns2 : ℕ) : PerformanceMetrics :=
  (joint_state_callback
    (clock_callback
      (earthquake_callback
        (clock_callback
          (earthquake_callback (clock_callback s sec0 ns0) e1) sec1 ns1) e2)
      sec2 ns2)
    (mkStateMsg pos angle vel)).state

/-- Ten identical unit samples, enough to pass the minimum-sample guard. -/
def tenSamples : List ℚ := [1, 1, 1, 1, 1, 1, 1, 1, 1, 1]

/-- A concrete store passing the guard, with two control timestamps. -/
def wfStore : PerformanceMetrics :=
  { pole_angles := tenSamples
    cart_positions := tenSamples
    control_forces := tenSamples
    recovery_times := []
    control_timestamps := [0, 1]
    last_earthquake_time := none
    last_stable_time := none
    simulation_time := 1 }

/-- The report `compute_metrics` produces on `wfStore`. -/
def wfReport : Report :=
  { max_pole_angle_dev := 1
    rms_cart_position_sq := 1
    peak_force := 1
    efficiency_percentage := 498/5
    avg_recovery_time := none
    avg_control_rate := some 1
    control_rate_ok := some false }

/-! ## Helper lemmas -/

/-- `list.index` finds no index exactly when the element is absent. -/
theorem nameIndex_eq_none (t : String) (l : List String) :
    nameIndex t l = none ↔ t ∉ l := by
  induction l with
  | nil => simp [nameIndex]
  | cons n ns ih =>
      by_cases h : n = t
      · simp [nameIndex, h]
      · rcases hn : nameIndex t ns with _ | i
        · simp [nameIndex, h, hn, List.mem_cons, Ne.symm h, ih.mp hn]
        · have ht : t ∈ ns := by
            by_contra hc
            rw [ih.mpr hc] at hn
            simp at hn
          simp [nameIndex, h, hn, List.mem_cons, ht]

/-- The first required lookup on a well-formed message finds index 0. -/
theorem nameIndex_cart :
    nameIndex "cart_to_base" ["cart_to_base", "pole_joint"] = some 0 := rfl

/-- The second required lookup on a well-formed message finds index 1. -/
theorem nameIndex_pole :
    nameIndex "pole_joint" ["cart_to_base", "pole_joint"] = some 1 := rfl

/-- `compute_metrics` never assigns node state. -/
theorem compute_metrics_fst (s : PerformanceMetrics) :
    (compute_metrics s).1 = s := by
  unfold compute_metrics
  split <;> rfl

/-- `joint_state_callback` never touches the control-force or
control-timestamp series. -/
theorem joint_state_keeps_control (s : PerformanceMetrics)
    (msg : JointStateMsg) :
    (joint_state_callback s msg).state.control_forces = s.control_forces
    ∧ (joint_state_callback s msg).state.control_timestamps
        = s.control_timestamps := by
  unfold joint_state_callback
  repeat' split
  all_goals dsimp only
  all_goals try (rcases s.last_earthquake_time with _ | teq)
  all_goals try split_ifs
  all_goals simp

/-! ## Claim theorems -/

/-- Claim C5: a periodic trigger produces no report exactly when one of the
pole-angle, cart-position or control-force series has fewer than 10 samples;
so the minimum-sample guard is the only control-flow branch that skips
report generation. -/
theorem insufficient_data_guard_iff (s : PerformanceMetrics) :
    (compute_metrics s).2 = none ↔
      (s.pole_angles.length < 10 ∨ s.cart_positions.length < 10 ∨
       s.control_forces.length < 10) := by
  unfold compute_metrics
  split
  all_goals rename_i hg
  · simp [hg]
  · simp [hg]

/-- Claim C10: a state event naming both required joints but whose
position/velocity arrays are too short raises an uncaught indexing fault
(no caught-`ValueError` warning), and the store is unchanged because every
array access precedes any append. -/
theorem short_arrays_fault_state_unchanged (s : PerformanceMetrics) :
    joint_state_callback s shortMsg = ⟨s, false, false, true⟩ := rfl

/-- Claim C1 counterexample evidence: after `degenerateTrace` every
minimum-sample guard passes and there are more than one recorded control
timestamp, yet the mean consecutive interval is zero and `compute_metrics`
still enters the division, producing a present (not absent) rate estimate
`1 / 0` — it does not treat the estimate as absent. -/
theorem zero_interval_rate_not_absent :
    1 < degenerateState.control_timestamps.length
    ∧ mean (diffs degenerateState.control_timestamps) = 0
    ∧ (compute_metrics degenerateState).2.map Report.avg_control_rate
        = some (some (1 / (0 : ℚ))) := by
  have hm : mean (diffs degenerateStamps) = 0 := by
    norm_num [mean, diffs, degenerateStamps]
  have hm2 : mean (diffs [2, 2, 2, 2, 2, 2, 2, 2, 2, 2]) = 0 := hm
  refine ⟨by decide, hm, ?_⟩
  unfold compute_metrics
  rw [if_neg (by decide)]
  norm_num [degenerateState, degenerateStamps, hm, hm2]

/-- Any state with length-aligned control series keeps them aligned under
any event sequence. -/
theorem run_preserves_align (evs : List Event) (s : PerformanceMetrics)
    (h : s.control_timestamps.length = s.control_forces.length) :
    (run s evs).control_timestamps.length
      = (run s evs).control_forces.length := by
  induction evs generalizing s with
  | nil => simpa [run] using h
  | cons e es ih =>
      apply ih
      cases e with
      | state msg =>
          have hk := joint_state_keeps_control s msg
          simp [step, hk.1, hk.2, h]
      | force v => simp [step, force_callback, h]
      | quake v =>
          simp only [step]
          unfold earthquake_callback
          split <;> simp [h]
      | clock sec ns => simp [step, clock_callback, h]
      | tick => simp [step, compute_metrics_fst, h]

/-- Claim C8: after every event sequence from the initial state the
control-timestamp and control-force series have the same length; a force
event appends one element to each in the same operation, and no other
handler (state, disturbance, clock, periodic timer) touches either
series. -/
theorem control_series_length_aligned :
    (∀ evs : List Event,
      (run initState evs).control_timestamps.length
        = (run initState evs).control_forces.length)
    ∧ (∀ (s : PerformanceMetrics) (v : ℚ),
        (step s (Event.force v)).control_timestamps
            = s.control_timestamps ++ [s.simulation_time]
        ∧ (step s (Event.force v)).control_forces = s.control_forces ++ [|v|])
    ∧ (∀ (s : PerformanceMetrics) (msg : JointStateMsg),
        (step s (Event.state msg)).control_timestamps = s.control_timestamps
        ∧ (step s (Event.state msg)).control_forces = s.control_forces)
    ∧ (∀ (s : PerformanceMetrics) (v : ℚ),
        (step s (Event.quake v)).control_timestamps = s.control_timestamps
        ∧ (step s (Event.quake v)).control_forces = s.control_forces)
    ∧ (∀ (s : PerformanceMetrics) (sec : ℤ) (ns : ℕ),
        (step s (Event.clock sec ns)).control_timestamps = s.control_timestamps
        ∧ (step s (Event.clock sec ns)).control_forces = s.control_forces)
    ∧ (∀ s : PerformanceMetrics,
        (step s Event.tick).control_timestamps = s.control_timestamps
        ∧ (step s Event.tick).control_forces = s.control_forces) := by
  refine ⟨?_, ?_, ?_, ?_, ?_, ?_⟩
  · intro evs
    exact run_preserves_align evs initState rfl
  · intro s v
    exact ⟨rfl, rfl⟩
  · intro s msg
    exact ⟨(joint_state_keeps_control s msg).2,
           (joint_state_keeps_control s msg).1⟩
  · intro s v
    simp only [step]
    unfold earthquake_callback
    split <;> exact ⟨rfl, rfl⟩
  · intro s sec ns
    exact ⟨rfl, rfl⟩
  · intro s
    simp [step, compute_metrics_fst]

/-- Claim C9: with at least 10 samples in each required series,
`compute_metrics` leaves the store unchanged, produces a report, and a
second invocation with no intervening events produces an identical
report. -/
theorem compute_metrics_idempotent (s : PerformanceMetrics)
    (h1 : 10 ≤ s.pole_angles.length) (h2 : 10 ≤ s.cart_positions.length)
    (h3 : 10 ≤ s.control_forces.length) :
    (compute_metrics s).1 = s
    ∧ (compute_metrics s).2.isSome = true
    ∧ (compute_metrics ((compute_metrics s).1)).2 = (compute_metrics s).2 := by
  refine ⟨compute_metrics_fst s, ?_, by rw [compute_metrics_fst]⟩
  unfold compute_metrics
  split
  · rename_i hg
    rcases hg with hg | hg | hg <;> omega
  · simp

/-- Witness for Claim C9 at the concrete store `wfStore`. -/
theorem compute_metrics_idempotent_witness :
    (10 ≤ wfStore.pole_angles.length ∧ 10 ≤ wfStore.cart_positions.length
      ∧ 10 ≤ wfStore.control_forces.length)
    ∧ ((compute_metrics wfStore).1 = wfStore
        ∧ (compute_metrics wfStore).2.isSome = true
        ∧ (compute_metrics ((compute_metrics wfStore).1)).2
            = (compute_metrics wfStore).2) :=
  ⟨⟨by decide, by decide, by decide⟩,
   compute_metrics_idempotent wfStore (by decide) (by decide) (by decide)⟩

/-- Claim C2: a state event missing either required joint name leaves the
whole store unchanged (no series grows, the disturbance window and the
simulation clock untouched), logs the joint-names warning, and raises no
fault. -/
theorem missing_name_drops_event (s : PerformanceMetrics)
    (msg : JointStateMsg)
    (h : "cart_to_base" ∉ msg.name ∨ "pole_joint" ∉ msg.name) :
    joint_state_callback s msg = ⟨s, true, false, false⟩ := by
  unfold joint_state_callback
  rcases h with h | h
  · rw [(nameIndex_eq_none _ _).mpr h]
  · rcases hc : nameIndex "cart_to_base" msg.name with _ | i
    · rfl
    · rw [(nameIndex_eq_none _ _).mpr h]

/-- Witness for Claim C2 on a message with no joint names. -/
theorem missing_name_drops_event_witness :
    ("cart_to_base" ∉ noJointMsg.name ∨ "pole_joint" ∉ noJointMsg.name)
    ∧ joint_state_callback initState noJointMsg
        = ⟨initState, true, false, false⟩ :=
  ⟨Or.inl (by decide),
   missing_name_drops_event initState noJointMsg (Or.inl (by decide))⟩

/-- Claim C4: one above-threshold disturbance taken at simulation time
`clockTime sec0 ns0`, then a clock update to `clockTime sec1 ns1`, then a
valid low-velocity state sample: the recovery series gains exactly one
entry, equal to the elapsed simulation time, and the disturbance window
becomes empty. -/
theorem single_disturbance_recovery (s : PerformanceMetrics)
    (e pos angle vel : ℚ) (sec0 sec1 : ℤ) (ns0 ns1 : ℕ)
    (he : 5 < |e|) (hv : |vel| < 5/100) :
    (recoveryScenario s e pos angle vel sec0 sec1 ns0 ns1).recovery_times
        = s.recovery_times ++ [clockTime sec1 ns1 - clockTime sec0 ns0]
    ∧ (recoveryScenario s e pos angle vel sec0 sec1 ns0 ns1).last_earthquake_time
        = none := by
  unfold recoveryScenario
  have hv2 : |vel| < 1/20 := by linarith
  norm_num [joint_state_callback, clock_callback, earthquake_callback,
    mkStateMsg, nameIndex_cart, nameIndex_pole, he, hv, hv2]

/-- Witness for Claim C4: disturbance 6 at time 1, recovery observed at
time 2. -/
theorem single_disturbance_recovery_witness :
    ((5 : ℚ) < |(6 : ℚ)| ∧ |(0 : ℚ)| < 5/100)
    ∧ ((recoveryScenario initState 6 0 0 0 1 2 0 0).recovery_times
          = initState.recovery_times ++ [clockTime 2 0 - clockTime 1 0]
        ∧ (recoveryScenario initState 6 0 0 0 1 2 0 0).last_earthquake_time
          = none) :=
  ⟨⟨by norm_num, by norm_num⟩,
   single_disturbance_recovery initState 6 0 0 0 1 2 0 0
     (by norm_num) (by norm_num)⟩

/-- Claim C3: two above-threshold disturbances (the second at simulation
time `clockTime sec1 ns1`) before any qualifying low-velocity state sample:
the eventual recovery appends exactly one entry, computed from the second
disturbance's recorded start time, not the first's. -/
theorem rearmed_disturbance_recovery (s : PerformanceMetrics)
    (e1 e2 pos angle vel : ℚ) (sec0 sec1 sec2 : ℤ) (ns0 ns1 ns2 : ℕ)
    (he1 : 5 < |e1|) (he2 : 5 < |e2|) (hv : |vel| < 5/100) :
    (rearmScenario s e1 e2 pos angle vel sec0 sec1 sec2 ns0 ns1 ns2).recovery_times
        = s.recovery_times ++ [clockTime sec2 ns2 - clockTime sec1 ns1]
    ∧ (rearmScenario s e1 e2 pos angle vel sec0 sec1 sec2 ns0 ns1 ns2).last_earthquake_time
        = none := by
  unfold rearmScenario
  have hv2 : |vel| < 1/20 := by linarith
  norm_num [joint_state_callback, clock_callback, earthquake_callback,
    mkStateMsg, nameIndex_cart, nameIndex_pole, he1, he2, hv, hv2]

/-- Witness for Claim C3: disturbances 6 at time 1 and 7 at time 2,
recovery observed at time 3 is computed from time 2. -/
theorem rearmed_disturbance_recovery_witness :
    ((5 : ℚ) < |(6 : ℚ)| ∧ (5 : ℚ) < |(7 : ℚ)| ∧ |(0 : ℚ)| < 5/100)
    ∧ ((rearmScenario initState 6 7 0 0 0 1 2 3 0 0 0).recovery_times
          = initState.recovery_times ++ [clockTime 3 0 - clockTime 2 0]
        ∧ (rearmScenario initState 6 7 0 0 0 1 2 3 0 0 0).last_earthquake_time
          = none) :=
  ⟨⟨by norm_num, by norm_num, by norm_num⟩,
   rearmed_disturbance_recovery initState 6 7 0 0 0 1 2 3 0 0 0
     (by norm_num) (by norm_num) (by norm_num)⟩

/-- Normal form of the report produced by `compute_metrics` once the guard
passes. -/
theorem compute_metrics_report_eq (s : PerformanceMetrics) (r : Report)
    (h : (compute_metrics s).2 = some r) :
    r = { max_pole_angle_dev := listMax s.pole_angles
          rms_cart_position_sq := mean (s.cart_positions.map (fun x => x * x))
          peak_force := listMax s.control_forces
          efficiency_percentage :=
            max 0 (min ((1 - listMax s.control_forces / 250) * 100) 100)
          avg_recovery_time :=
            if s.recovery_times.isEmpty then none
            else some (mean s.recovery_times)
          avg_control_rate :=
            if 1 < s.control_timestamps.length then some (rateAt s) else none
          control_rate_ok :=
            if 1 < s.control_timestamps.length then
              some (decide (40 ≤ rateAt s / 4 ∧ rateAt s / 4 ≤ 70))
            else none } := by
  unfold compute_metrics at h
  split at h
  · simp at h
  · dsimp only at h
    rw [Option.some.injEq] at h
    subst h
    by_cases hlen : 1 < s.control_timestamps.length <;> simp [hlen, rateAt]

/-- Claim C6: the efficiency field equals `(1 - peakForce/250) * 100`
clamped to `[0, 100]`; peak force 0 gives exactly 100, peak force at least
250 gives exactly 0, and the value is never negative. -/
theorem efficiency_clamped (s : PerformanceMetrics) (r : Report)
    (h : (compute_metrics s).2 = some r) :
    r.efficiency_percentage
        = max 0 (min ((1 - r.peak_force / 250) * 100) 100)
    ∧ (r.peak_force = 0 → r.efficiency_percentage = 100)
    ∧ (250 ≤ r.peak_force → r.efficiency_percentage = 0)
    ∧ 0 ≤ r.efficiency_percentage := by
  have hr := compute_metrics_report_eq s r h
  subst hr
  refine ⟨rfl, ?_, ?_, le_max_left 0 _⟩
  · intro h0
    dsimp only at h0 ⊢
    rw [h0]
    norm_num
  · intro h250
    dsimp only at h250 ⊢
    have hle : (1 - listMax s.control_forces / 250) * 100 ≤ 0 := by nlinarith
    rw [min_eq_left (hle.trans (by norm_num : (0:ℚ) ≤ 100))]
    exact max_eq_left hle

/-- Claim C7: when at least two control timestamps exist the raw rate is
the reciprocal of the mean consecutive difference, the reported value is
that rate divided by 4, and the health flag compares the divided value to
the band `[40, 70]`; with fewer than two timestamps the estimate is
absent. -/
theorem control_rate_estimate (s : PerformanceMetrics) (r : Report)
    (h : (compute_metrics s).2 = some r) :
    (2 ≤ s.control_timestamps.length →
        r.avg_control_rate = some (rateAt s)
        ∧ reportedRate r = some (rateAt s / 4)
        ∧ r.control_rate_ok
            = some (decide (40 ≤ rateAt s / 4 ∧ rateAt s / 4 ≤ 70)))
    ∧ (s.control_timestamps.length < 2 →
        r.avg_control_rate = none ∧ r.control_rate_ok = none) := by
  have hr := compute_metrics_report_eq s r h
  subst hr
  constructor
  · intro h2
    have h1 : 1 < s.control_timestamps.length := h2
    simp [reportedRate, h1]
  · intro h2
    have h1 : ¬ 1 < s.control_timestamps.length := by omega
    simp [h1]

/-- On the concrete store `wfStore` the produced report is `wfReport`. -/
theorem wfStore_report : (compute_metrics wfStore).2 = some wfReport := by
  unfold compute_metrics
  rw [if_neg (by decide)]
  norm_num [wfStore, wfReport, tenSamples, mean, diffs, listMax,
    decide_eq_false_iff_not]

/-- Witness for Claim C6 at the concrete store `wfStore`. -/
theorem efficiency_clamped_witness :
    (compute_metrics wfStore).2 = some wfReport
    ∧ (wfReport.efficiency_percentage
          = max 0 (min ((1 - wfReport.peak_force / 250) * 100) 100)
        ∧ (wfReport.peak_force = 0 → wfReport.efficiency_percentage = 100)
        ∧ (250 ≤ wfReport.peak_force → wfReport.efficiency_percentage = 0)
        ∧ 0 ≤ wfReport.efficiency_percentage) :=
  ⟨wfStore_report, efficiency_clamped wfStore wfReport wfStore_report⟩

/-- Witness for Claim C7 at the concrete store `wfStore`. -/
theorem control_rate_estimate_witness :
    (compute_metrics wfStore).2 = some wfReport
    ∧ ((2 ≤ wfStore.control_timestamps.length →
          wfReport.avg_control_rate = some (rateAt wfStore)
          ∧ reportedRate wfReport = some (rateAt wfStore / 4)
          ∧ wfReport.control_rate_ok
              = some (decide (40 ≤ rateAt wfStore / 4
                  ∧ rateAt wfStore / 4 ≤ 70)))
        ∧ (wfStore.control_timestamps.length < 2 →
            wfReport.avg_control_rate = none
            ∧ wfReport.control_rate_ok = none)) :=
  ⟨wfStore_report, control_rate_estimate wfStore wfReport wfStore_report⟩

/-- The degenerate store is genuinely reachable: running the event trace
with one clock update followed by ten valid state samples and ten force
commands from the initial state produces exactly `degenerateState`. -/
theorem degenerateState_reachable :
    run initState degenerateTrace = degenerateState := by
  norm_num [degenerateTrace, run, step, joint_state_callback, force_callback,
    clock_callback, clockTime, mkStateMsg, nameIndex_cart, nameIndex_pole,
    initState, degenerateState, degenerateStamps, abs_of_nonneg]
